import Mathlib

/-!
Verification of the three standalone Rust programs in this repository
(`control_flow`, `data_types`, `variables`) against their natural-language
specification, via a shallow embedding in Lean 4.

Machine integers (`u32`) are modelled as `Nat` together with an explicit
trap on any operation leaving `[0, 2^32)`, matching Rust's checked
(debug-mode) arithmetic.  Rust `f32`/`f64` values are modelled as exact
rationals obtained by correctly rounding (round-to-nearest, ties-to-even)
to 24- resp. 53-bit significands; all values arising in the programs lie
well inside the normal range of both formats, so exponent clamping
(overflow to infinity, subnormal flushing) never comes into play and is
omitted.  Console output is modelled as the list of printed lines, in
program order; where the exact printed digits of a float matter, the
default `Display` formatting is modelled as the shortest decimal that
round-trips to the stored value (closest-first among candidates), which is
Rust's documented behaviour.
-/

attribute [local semireducible] Rat.add Rat.mul Rat.sub Rat.inv

namespace ControlFlow

/-- Program counter of `control_flow/src/main.rs`: `outer` is the head of the
labeled loop `'counting_up` (the `if count == 0 break` check), `inner` is the
head of the inner `loop`, `done` is reached after the final `println`, and
`trapped` models a Rust arithmetic overflow/underflow abort. -/
inductive Phase where
  | outer
  | inner
  | done
  | trapped
deriving DecidableEq

/-- State of the `control_flow` program: the four `u32` locals (`count`,
`result` from the outer scope, `num`, `factorial` from the loop body), the
lines printed so far, the program counter, and a flag recording whether the
`continue 'counting_up` branch was ever executed. -/
structure State where
  count : Nat
  result : Nat
  num : Nat
  factorial : Nat
  output : List String
  phase : Phase
  tookCont : Bool
deriving DecidableEq

/-- Upper bound of the `u32` range. -/
def U32 : Nat := 2 ^ 32

/-- One step of `control_flow/src/main.rs`.  From `outer`: `if count == 0`
break out (printing `Result = {result}`), otherwise declare `num = 10`,
`factorial = 1` and enter the inner loop.  From `inner`: `if num == 1`, the
inner loop breaks with value `factorial`, which is added to `result`
(trapping on `u32` overflow), the per-iteration line is printed and `count`
is decremented (trapping on underflow); otherwise `if count == 0` the labeled
`continue 'counting_up` transfers to the outer loop head; otherwise
`factorial *= num` (trapping on overflow) and `num -= 1` (trapping on
underflow).  `done` and `trapped` are absorbing. -/
def step (s : State) : State :=
  match s.phase with
  | .outer =>
      if s.count = 0 then
        { s with phase := .done,
                 output := s.output ++ ["Result = " ++ toString s.result] }
      else
        { s with num := 10, factorial := 1, phase := .inner }
  | .inner =>
      if s.num = 1 then
        if U32 ≤ s.result + s.factorial then
          { s with phase := .trapped }
        else if s.count = 0 then
          { s with phase := .trapped }
        else
          { s with result := s.result + s.factorial,
                   output := s.output ++
                     ["count = " ++ toString s.count ++
                      ", factorial : " ++ toString s.factorial],
                   count := s.count - 1,
                   phase := .outer }
      else if s.count = 0 then
        { s with phase := .outer, tookCont := true }
      else if U32 ≤ s.factorial * s.num then
        { s with phase := .trapped }
      else if s.num = 0 then
        { s with phase := .trapped }
      else
        { s with factorial := s.factorial * s.num, num := s.num - 1 }
  | .done => s
  | .trapped => s

/-- Initial state: `let mut count: u32 = 4; let mut result: u32 = 0;` with
nothing printed and control at the head of `'counting_up`.  (`num` and
`factorial` are not yet declared; they are assigned on entry to the loop
body before any use.) -/
def init : State :=
  { count := 4, result := 0, num := 0, factorial := 0,
    output := [], phase := .outer, tookCont := false }

/-- Execution of the program for `n` steps from the initial state; every
reachable state of the program is `run n` for some `n`. -/
def run : Nat → State
  | 0 => init
  | n + 1 => step (run n)

end ControlFlow

namespace DataTypes

/-- Fuel-bounded computation of the binary exponent of a rational `q ≥ 1`:
the result `e` satisfies `2^e ≤ q < 2^(e+1)` whenever `q < 2^fuel`. -/
def findExpGe1 (fuel : Nat) (q : ℚ) : ℤ :=
  match fuel with
  | 0 => 0
  | n + 1 => if q < 2 then 0 else findExpGe1 n (q / 2) + 1

/-- Fuel-bounded computation of the binary exponent of a rational
`0 < q < 1`: the result `e` is negative and satisfies `2^e ≤ q < 2^(e+1)`
whenever `2^(-fuel) ≤ q`. -/
def findExpLt1 (fuel : Nat) (q : ℚ) : ℤ :=
  match fuel with
  | 0 => 0
  | n + 1 => if 1 ≤ q then 0 else findExpLt1 n (q * 2) - 1

/-- Binary exponent `⌊log₂ q⌋` of a positive rational, with enough fuel for
any magnitude arising in this development. -/
def floorLog2 (q : ℚ) : ℤ :=
  if 1 ≤ q then findExpGe1 1100 q else findExpLt1 1100 q

/-- Round a rational to the nearest integer, ties to even — the IEEE 754
default rounding of the significand. -/
def rne (q : ℚ) : ℤ :=
  let f := ⌊q⌋
  let r := q - (f : ℚ)
  if r < 1 / 2 then f
  else if (1 : ℚ) / 2 < r then f + 1
  else if f % 2 = 0 then f else f + 1

/-- Correctly round a positive rational to a binary floating-point format
with a `p`-bit significand (round-to-nearest, ties-to-even, unbounded
exponent: every value in this development is far inside the normal range of
the formats used, so neither overflow nor subnormals can arise). -/
def roundFPPos (p : Nat) (q : ℚ) : ℚ :=
  let e := floorLog2 q
  let k : ℤ := (p : ℤ) - 1 - e
  if 0 ≤ k then
    (rne (q * ((2 ^ k.toNat : ℕ) : ℚ)) : ℚ) / ((2 ^ k.toNat : ℕ) : ℚ)
  else
    (rne (q / ((2 ^ (-k).toNat : ℕ) : ℚ)) : ℚ) * ((2 ^ (-k).toNat : ℕ) : ℚ)

/-- Correctly round a rational to a `p`-bit-significand binary format. -/
def roundFP (p : Nat) (q : ℚ) : ℚ :=
  if q = 0 then 0
  else if q < 0 then -roundFPPos p (-q)
  else roundFPPos p q

/-- Value a decimal literal denotes after storage in a Rust `f64`
(IEEE 754 binary64: 53-bit significand). -/
def fl64 (q : ℚ) : ℚ := roundFP 53 q

/-- Value a decimal literal denotes after storage in a Rust `f32`
(IEEE 754 binary32: 24-bit significand). -/
def fl32 (q : ℚ) : ℚ := roundFP 24 q

/-- Value of `my_f32` in `data_types/src/main.rs`: the literal
`21.321654651651651` stored in an `f32`. -/
def my_f32 : ℚ := fl32 (21321654651651651 / 1000000000000000)

/-- Value of `my_f64` in `data_types/src/main.rs`: the literal
`21.21354651654165165416` stored in an `f64`. -/
def my_f64 : ℚ := fl64 (2121354651654165165416 / 100000000000000000000)

/-- Value of `sum` in `numeric_operation`: `5 + 5`, integer arithmetic. -/
def sum : ℤ := 5 + 5

/-- Value of `difference` in `numeric_operation`: `5.5 - 6.23`, both literals
stored as `f64` and the subtraction correctly rounded. -/
def difference : ℚ := fl64 (fl64 (11 / 2) - fl64 (623 / 100))

/-- Value of `multiply` in `numeric_operation`: `5.5 * 20 as f64`, the
integer literal `20` explicitly widened to `f64` before multiplying. -/
def multiply : ℚ := fl64 (fl64 (11 / 2) * fl64 20)

/-- Value of `divide` in `numeric_operation`: `(5 as f64) / 5.5`, the integer
literal `5` explicitly widened to `f64` before dividing. -/
def divide : ℚ := fl64 (fl64 5 / fl64 (11 / 2))

/-- One printed line of the `data_types` program, carrying the exact values
interpolated into it: the `f32` line, the `f64` line, or the single line of
`numeric_operation` holding all four computed values. -/
inductive Line where
  | f32Line : ℚ → Line
  | f64Line : ℚ → Line
  | opsLine : ℤ → ℚ → ℚ → ℚ → Line
deriving DecidableEq

/-- Output of `floating_type`: the `My F32` line then the `My F64` line. -/
def floating_type : List Line := [.f32Line my_f32, .f64Line my_f64]

/-- Shortest-round-trip decimal selection, as performed by Rust's default
`Display` (`{}`) formatting of floats (Grisu/Ryū): search for the smallest
number `d` of fractional digits such that some decimal `m / 10^d` reads
back (by correct rounding into the `p`-bit format) as the value `v` being
printed, testing the two decimals adjacent to `v` — the only candidates
that can lie in the round-trip interval once `10^-d` exceeds its width —
and, when both round-trip, choosing the one closer to `v` (ties to an even
last digit).  The first argument of the inner recursion is the current
digit count `d`, the second is fuel (ample for every value printed by this
repository's programs). -/
def shortestRTAux (p : Nat) (v : ℚ) : Nat → Nat → ℤ × ℕ
  | _, 0 => (0, 0)
  | d, fuel + 1 =>
    let lo := ⌊v * 10 ^ d⌋
    let hi := lo + 1
    if roundFP p ((lo : ℚ) / 10 ^ d) = v then
      if roundFP p ((hi : ℚ) / 10 ^ d) = v then
        let dl := v * 10 ^ d - (lo : ℚ)
        let dh := (hi : ℚ) - v * 10 ^ d
        if dl < dh then (lo, d)
        else if dh < dl then (hi, d)
        else if lo % 2 = 0 then (lo, d) else (hi, d)
      else (lo, d)
    else if roundFP p ((hi : ℚ) / 10 ^ d) = v then (hi, d)
    else shortestRTAux p v (d + 1) fuel

/-- Mantissa and fractional-digit count of the decimal printed by Rust's
`Display` for a value `v` of the `p`-bit-significand format. -/
def printedDec (p : Nat) (v : ℚ) : ℤ × ℕ :=
  if v < 0 then
    let r := shortestRTAux p (-v) 0 60
    (-r.1, r.2)
  else shortestRTAux p v 0 60

/-- Decimal string with mantissa `m` and `d` fractional digits, e.g.
`renderDec 21321655 6` is the string `21.321655`. -/
def renderDec (m : ℤ) (d : ℕ) : String :=
  let ds := (toString m.natAbs).toList
  let ds := List.replicate (d + 1 - ds.length) '0' ++ ds
  let n := ds.length
  let sign := if m < 0 then "-" else ""
  if d = 0 then sign ++ String.mk ds
  else sign ++ String.mk (ds.take (n - d)) ++ "." ++ String.mk (ds.drop (n - d))

/-- String printed by Rust's `Display` for an `f32` value `v`. -/
def printF32 (v : ℚ) : String :=
  let r := printedDec 24 v
  renderDec r.1 r.2

/-- String printed by Rust's `Display` for an `f64` value `v`.  (Sanity
checks of this model against the runtime: it renders `difference` as
`-0.7300000000000004` and `divide` as `0.9090909090909091`, exactly the
digits the Rust program prints for those values.) -/
def printF64 (v : ℚ) : String :=
  let r := printedDec 53 v
  renderDec r.1 r.2

/-- Two lines of `floating_type` as the byte-exact strings written to
standard output, with the stored values formatted by `Display`. -/
def floating_type_lines : List String :=
  ["My F32 : " ++ printF32 my_f32, "My F64 : " ++ printF64 my_f64]

/-- Output of `numeric_operation`: one formatted line carrying `sum`,
`difference`, `multiply` and `divide`. -/
def numeric_operation : List Line := [.opsLine sum difference multiply divide]

/-- Output of the `data_types` program: `floating_type()` then
`numeric_operation()`. -/
def main : List Line := floating_type ++ numeric_operation

end DataTypes

namespace Variables

/-- Global constant `HOURS_IN_DAY : i32 = 24` of `variables/src/main.rs`. -/
def HOURS_IN_DAY : Int := 24

/-- Output of `immutable_example`: `let age = 25` printed once (note the
double space of the format string before the value). -/
def immutable_example : List String :=
  let age : Int := 25
  ["Your immutalbe age is  " ++ toString age]

/-- Output of `mutable_example`: `let mut age = 25` printed, then the
reassignment `age = 26` printed (both format strings have a double space
before the value). -/
def mutable_example : List String :=
  let age : Int := 25
  let firstLine := "Your mutalbe age is  " ++ toString age
  let age : Int := 26
  [firstLine, "Your mutalbe new age is  " ++ toString age]

/-- Output of `const_example`: the block-local `const AGE : i32 = 25`
printed once (single space before the value). -/
def const_example : List String :=
  let AGE : Int := 25
  ["You const varialbe age is " ++ toString AGE]

/-- Successive shadowed bindings of `x` in `shadowing_example`:
`let x = 5`. -/
def shadowing_x0 : Int := 5

/-- Shadowing rebinding `let x = x + 1`, evaluated against `shadowing_x0`. -/
def shadowing_x1 : Int := shadowing_x0 + 1

/-- Inner-block shadowing rebinding `let x = x * 2`, evaluated against the
just-shadowed `shadowing_x1`. -/
def shadowing_inner_x : Int := shadowing_x1 * 2

/-- Output of `shadowing_example`: the inner-block print of the innermost
`x`, then — after the block ends — the print of the outer `x`. -/
def shadowing_example : List String :=
  ["The value of x in the inner scope is: " ++ toString shadowing_inner_x,
   "The value of x is: " ++ toString shadowing_x1]

/-- Output of the `variables` program's `main`: `immutable_example()`,
`mutable_example()`, `const_example()`, then the global-constant print.
Neither `shadowing_example` nor `keyword_example` is invoked. -/
def main : List String :=
  immutable_example ++ mutable_example ++ const_example ++
    ["Your Global varialbe hours in a day is " ++ toString HOURS_IN_DAY]

/-- Decides whether the character pattern given first occurs at the head of
the second list. -/
def startsWithChars : List Char → List Char → Bool
  | [], _ => true
  | _ :: _, [] => false
  | c :: p, d :: t => c == d && startsWithChars p t

/-- Decides whether the character pattern `p` occurs anywhere in `t`. -/
def containsChars (p : List Char) : List Char → Bool
  | [] => startsWithChars p []
  | d :: t => startsWithChars p (d :: t) || containsChars p t

/-- Decides whether a printed line contains a double space right after the
word `is`. -/
def doubleSpaceAfterIs (s : String) : Bool :=
  containsChars "is  ".toList s.toList

end Variables

namespace ControlFlow

/-- After 45 steps the `control_flow` program has reached its final state,
and that state is a fixed point of `step`: every later state is the same. -/
theorem step_fix_45 : step (run 45) = run 45 := by decide

/-- The state reached after 45 steps is the terminal (`done`) state. -/
theorem run_phase_45 : (run 45).phase = Phase.done := by decide

/-- Every execution point at or beyond step 45 is the final state. -/
theorem run_ge_45 (n : Nat) (h : 45 ≤ n) : run n = run 45 := by
  induction n with
  | zero => omega
  | succ k ih =>
    rcases Nat.eq_or_lt_of_le h with h' | h'
    · rw [← h']
    · have hk : 45 ≤ k := by omega
      show step (run k) = run 45
      rw [ih hk, step_fix_45]

/-- Up to the terminal step, the `continue 'counting_up` branch has never
been executed. -/
theorem cont_bounded : ∀ n, n ≤ 45 → (run n).tookCont = false := by decide

/-- Up to the terminal step, no arithmetic operation has trapped and all
four `u32` locals are within the `u32` range. -/
theorem u32_bounded : ∀ n, n ≤ 45 →
    ((run n).phase ≠ Phase.trapped ∧ (run n).count < U32 ∧
     (run n).result < U32 ∧ (run n).num < U32 ∧ (run n).factorial < U32) := by
  decide

/-- Up to the terminal step, whenever control is inside the inner loop the
`factorial` accumulator is at least 1, and it does not decrease across a
step that stays inside the inner loop. -/
theorem factorial_bounded : ∀ n, n ≤ 45 →
    ((run n).phase = Phase.inner →
      1 ≤ (run n).factorial ∧
      ((run (n + 1)).phase = Phase.inner →
        (run n).factorial ≤ (run (n + 1)).factorial)) := by
  decide

end ControlFlow

/-- C1: the factorial program prints exactly the four lines
`count = N, factorial : 3628800` for N = 4, 3, 2, 1 in that order, followed
by the final line `Result = 14515200`; each inner loop yields 10! = 3628800
and the accumulated result is 4 × 3628800 = 14515200. -/
theorem c1_factorial_output :
    (ControlFlow.run 45).output =
      ["count = 4, factorial : 3628800", "count = 3, factorial : 3628800",
       "count = 2, factorial : 3628800", "count = 1, factorial : 3628800",
       "Result = 14515200"] ∧
    (ControlFlow.run 45).result = 4 * 3628800 ∧
    (ControlFlow.run 45).result = 14515200 := by
  decide

/-- C5: the `continue 'counting_up` branch of the inner loop is dead code —
in every reachable state of the execution (every `run n`) it has never been
executed. -/
theorem c5_continue_dead : ∀ n, (ControlFlow.run n).tookCont = false := by
  intro n
  rcases le_or_lt n 45 with h | h
  · exact ControlFlow.cont_bounded n h
  · rw [ControlFlow.run_ge_45 n (Nat.le_of_lt h)]
    decide

/-- C6: no `u32` arithmetic operation of the factorial program overflows:
no reachable state is the trap state, and all four `u32` locals stay inside
the `u32` range `[0, 2^32)` throughout execution. -/
theorem c6_no_overflow : ∀ n,
    (ControlFlow.run n).phase ≠ ControlFlow.Phase.trapped ∧
    (ControlFlow.run n).count < ControlFlow.U32 ∧
    (ControlFlow.run n).result < ControlFlow.U32 ∧
    (ControlFlow.run n).num < ControlFlow.U32 ∧
    (ControlFlow.run n).factorial < ControlFlow.U32 := by
  intro n
  rcases le_or_lt n 45 with h | h
  · exact ControlFlow.u32_bounded n h
  · rw [ControlFlow.run_ge_45 n (Nat.le_of_lt h)]
    decide

/-- C7: whenever control is inside the inner loop, the `factorial`
accumulator is at least 1, and it is non-decreasing from one inner-loop
state to the next as long as control stays inside the inner loop (a new
outer iteration, which resets it to 1, leaves the inner loop first). -/
theorem c7_factorial_invariant : ∀ n,
    (ControlFlow.run n).phase = ControlFlow.Phase.inner →
    1 ≤ (ControlFlow.run n).factorial ∧
    ((ControlFlow.run (n + 1)).phase = ControlFlow.Phase.inner →
      (ControlFlow.run n).factorial ≤ (ControlFlow.run (n + 1)).factorial) := by
  intro n
  rcases le_or_lt n 45 with h | h
  · exact ControlFlow.factorial_bounded n h
  · intro hph
    rw [ControlFlow.run_ge_45 n (Nat.le_of_lt h)] at hph
    exact absurd hph (by decide)

/-- Witness for C7 at the concrete step 1 (the first state inside the inner
loop, where `factorial = 1` and the next state is again inside). -/
theorem c7_factorial_invariant_witness :
    1 ≤ (ControlFlow.run 1).factorial ∧
    ((ControlFlow.run 2).phase = ControlFlow.Phase.inner →
      (ControlFlow.run 1).factorial ≤ (ControlFlow.run 2).factorial) :=
  c7_factorial_invariant 1 (by decide)

/-- C8: all three programs terminate.  The factorial program reaches its
terminal state after 45 steps with `count = 0` (the outer loop exits exactly
at the zero check) and `num = 1` (the inner loop exits at the one check),
that state is a fixed point of `step`, it is the normal `done` exit and not
the trap exit; the other two programs are straight-line and their outputs
are the concrete finite line lists of their embeddings. -/
theorem c8_termination :
    (ControlFlow.run 45).phase = ControlFlow.Phase.done ∧
    (ControlFlow.run 45).count = 0 ∧
    (ControlFlow.run 45).num = 1 ∧
    ControlFlow.step (ControlFlow.run 45) = ControlFlow.run 45 ∧
    (ControlFlow.run 45).phase ≠ ControlFlow.Phase.trapped ∧
    DataTypes.main.length = 3 ∧
    Variables.main.length = 5 := by
  decide

/-- C2: in `numeric_operation`, the integer sum `5 + 5` is exactly 10 and
the product `5.5 * 20 as f64` is exactly 110; the difference `5.5 - 6.23`
equals −0.73 up to floating rounding (it differs from the exact −73/100 by
at most 2⁻⁵¹, the rounding of the literal `6.23`); the quotient
`(5 as f64) / 5.5` equals the periodic 10/11 = 0.0909… up to floating
rounding (within 2⁻⁵⁴); and all four values are printed in one formatted
line. -/
theorem c2_numeric_values :
    DataTypes.sum = 10 ∧
    DataTypes.multiply = 110 ∧
    DataTypes.difference ≠ -(73 / 100) ∧
    -(1 / 2 ^ 51) ≤ DataTypes.difference + 73 / 100 ∧
    DataTypes.difference + 73 / 100 ≤ 1 / 2 ^ 51 ∧
    DataTypes.divide ≠ 10 / 11 ∧
    -(1 / 2 ^ 54) ≤ DataTypes.divide - 10 / 11 ∧
    DataTypes.divide - 10 / 11 ≤ 1 / 2 ^ 54 ∧
    DataTypes.numeric_operation =
      [DataTypes.Line.opsLine DataTypes.sum DataTypes.difference
        DataTypes.multiply DataTypes.divide] := by
  decide

/-- C9 counterexample: the claim's double-precision line is not what the
program prints.  The 16-digit decimal `21.21354651654165` already reads
back as the stored double, so the shortest-round-trip `Display` formatting
stops there and never produces the claimed 17-digit
`21.213546516541652`: the printed line pair differs from the claimed
pair. -/
theorem c9_counterexample :
    DataTypes.fl64 (2121354651654165 / 100000000000000) = DataTypes.my_f64 ∧
    DataTypes.floating_type_lines ≠
      ["My F32 : 21.321655", "My F64 : 21.213546516541652"] := by
  decide

/-- C9 (amended): storing the literals loses precision — the stored `f32`
and `f64` values differ from the literals `21.321654651651651` and
`21.21354651654165165416` — and the printed lines show the
`Display`-formatted stored values, namely `My F32 : 21.321655` and
`My F64 : 21.21354651654165` (the shortest decimals that round-trip to the
stored values, 16 digits for the double rather than the claimed 17); the
printed digit sequences denote exactly the stored values, not the
literals. -/
theorem c9_float_precision_amended :
    DataTypes.my_f32 ≠ 21321654651651651 / 1000000000000000 ∧
    DataTypes.my_f64 ≠ 2121354651654165165416 / 100000000000000000000 ∧
    DataTypes.fl32 (21321655 / 1000000) = DataTypes.my_f32 ∧
    DataTypes.fl64 (2121354651654165 / 100000000000000) = DataTypes.my_f64 ∧
    DataTypes.floating_type_lines =
      ["My F32 : 21.321655", "My F64 : 21.21354651654165"] := by
  decide

/-- C3: in the shadowing demonstration, `x = 5` rebound by `x = x + 1`
yields 6; the nested block's `x = x * 2` evaluates against the just-shadowed
6 and prints 12; after the block the printed `x` is again 6. -/
theorem c3_shadowing_values :
    Variables.shadowing_x0 = 5 ∧
    Variables.shadowing_x1 = 6 ∧
    Variables.shadowing_inner_x = 12 ∧
    Variables.shadowing_example =
      ["The value of x in the inner scope is: 12",
       "The value of x is: 6"] := by
  decide

/-- C4 counterexample: the claim as stated is false — the variables program
does print the five listed lines, but the double space after `is` occurs in
three of them (`immutalbe`, `mutalbe`, `mutalbe new`), not in exactly
two. -/
theorem c4_counterexample :
    ¬ (Variables.main =
        ["Your immutalbe age is  25", "Your mutalbe age is  25",
         "Your mutalbe new age is  26", "You const varialbe age is 25",
         "Your Global varialbe hours in a day is 24"] ∧
       (Variables.main.filter Variables.doubleSpaceAfterIs).length = 2) := by
  decide

/-- C4 (amended): the variables program writes exactly the five listed
lines, byte-for-byte with the misspellings and double spaces, in this order,
and the double space after `is` occurs in exactly three of the messages. -/
theorem c4_variables_output :
    Variables.main =
      ["Your immutalbe age is  25", "Your mutalbe age is  25",
       "Your mutalbe new age is  26", "You const varialbe age is 25",
       "Your Global varialbe hours in a day is 24"] ∧
    (Variables.main.filter Variables.doubleSpaceAfterIs).length = 3 := by
  decide

/-- C10: the variables program's `main` only invokes `immutable_example`,
`mutable_example` and `const_example` before printing the global constant,
and no line of the shadowing demonstration occurs in its output — the
shadowing values 12 and 6 are never printed by the program as shipped. -/
theorem c10_shadowing_not_printed :
    Variables.main =
      Variables.immutable_example ++ Variables.mutable_example ++
        Variables.const_example ++
        ["Your Global varialbe hours in a day is " ++
          toString Variables.HOURS_IN_DAY] ∧
    Variables.shadowing_example.all
      (fun l => !(Variables.main.contains l)) = true := by
  decide
